import Mathlib

/-
Verification of the NES emulator core (src/bus.rs, src/cpu.rs, src/ppu.rs)
against its natural-language specification.

Machine integers are modelled as Nat with explicit `% 2^w` where the Rust
wrapping operations (`wrapping_add`, `wrapping_sub`, `as u8`/`as u16` casts)
appear in the source.  The Rust plain `+` on `u16` (which must not overflow)
is modelled by the explicit domain guard in `Bus.memRead16`.  Code paths
that panic or call `process::exit` are modelled by the `WriteResult`
inductive; fallible operations return `Option`.
-/

namespace Nes

/-- Modelled from the spec: `rom.rs` (the `Rom` struct with its `p_rom`
byte vector) is declared in `main.rs` but its source is not under `src/`.
Spec section 6: the cartridge exposes a contiguous PRG-ROM byte vector of
length `0x4000` or `0x8000`.  Contents are modelled as a total function
from offsets to bytes together with the vector length. -/
structure Rom where
  pRomLen : Nat
  pRom : Nat → Nat

/-- The memory bus from `src/bus.rs`: `struct Bus { cpu_vram: [u8; 2048], rom: Rom }`.
Note: the `Bus` in `src/bus.rs` holds NO PPU handle. -/
structure Bus where
  cpuVram : Nat → Nat
  rom : Rom

/-- Outcome of `Bus::mem_write` (src/bus.rs lines 87-138): the write either
returns normally with the updated bus, panics (the Rust source panics with
message `Attmempt to write to cartridge ROM Space`), or terminates the
process via `std::process::exit`. -/
inductive WriteResult where
  | ok (b : Bus)
  | panicked
  | exited (code : Nat)

/-- Function `Bus::read_prom` (src/bus.rs lines 51-60):
`addr -= 0x8000; if p_rom.len() == 0x4000 && addr >= 0x4000 { addr %= 0x4000 }; p_rom[addr]`.
Per spec section 6 the PRG length is `0x4000` or `0x8000`, under which the
index stays in bounds; `pRom` being a total function, indexing is total here. -/
def Bus.readProm (b : Bus) (addr : Nat) : Nat :=
  let addr := addr - 0x8000
  let addr := if b.rom.pRomLen = 0x4000 ∧ 0x4000 ≤ addr then addr % 0x4000 else addr
  b.rom.pRom addr

/-- Function `Bus::mem_read` (src/bus.rs lines 64-85).  Match arms in source order:
RAM `0x0000..=0x1FFF` (mask `0x07FF`), APU/IO `0x4000..=0x401F` gives `0xFF`,
ROM `0x8000..=0xFFFF` via `read_prom`, and every other address (including the
PPU register window `0x2000..=0x3FFF`) falls to the default arm returning `0xFF`. -/
def Bus.memRead (b : Bus) (addr : Nat) : Nat :=
  if addr ≤ 0x1FFF then b.cpuVram (addr &&& 0x07FF)
  else if 0x4000 ≤ addr ∧ addr ≤ 0x401F then 0xFF
  else if 0x8000 ≤ addr ∧ addr ≤ 0xFFFF then b.readProm addr
  else 0xFF

/-- Function `Bus::mem_write` (src/bus.rs lines 87-138).  Match arms in source order:
RAM `0x0000..=0x1FFF` stores at `addr & 0b11111111111` (= `0x7FF`);
`0x6000` is the blargg-test status port (data `0x00` exits 0, data `0x80`
prints `Running`, anything else prints a failure message and exits 1);
`0x6004..=0x7000` prints the byte (no state change); `0x8000..=0xFFFF`
panics with `Attmempt to write to cartridge ROM Space`; all other
addresses are a no-op. -/
def Bus.memWrite (b : Bus) (addr data : Nat) : WriteResult :=
  if addr ≤ 0x1FFF then
    .ok { b with cpuVram := fun i => if i = addr &&& 0x7FF then data else b.cpuVram i }
  else if addr = 0x6000 then
    if data = 0x00 then .exited 0
    else if data = 0x80 then .ok b
    else .exited 1
  else if 0x6004 ≤ addr ∧ addr ≤ 0x7000 then .ok b
  else if 0x8000 ≤ addr ∧ addr ≤ 0xFFFF then .panicked
  else .ok b

/-- The default `Mem::mem_read_16` (src/cpu.rs lines 73-77), which `Bus`
inherits: `lo = mem_read(addr); hi = mem_read(addr + 1); (hi << 8) | lo`.
The address of the high byte is computed with the Rust non-wrapping `u16`
addition `addr + 1`, so the helper is only defined when `addr + 1` still
fits in a `u16`; at `addr = 0xFFFF` the addition overflows (`none`). -/
def Bus.memRead16 (b : Bus) (addr : Nat) : Option Nat :=
  if addr + 1 ≤ 0xFFFF then
    some ((b.memRead (addr + 1)) <<< 8 ||| b.memRead addr)
  else none

/-- PPU register state used by `PPU::read_register` (src/ppu.rs). -/
structure PPU where
  control : Nat
  mask : Nat
  status : Nat
  oamAddr : Nat
  oamData : Nat → Nat
  scroll : Nat × Nat
  addrLatch : Bool
  addr : Nat
  vram : Nat → Nat

/-- Function `PPU::read_register` (src/ppu.rs lines 181-192). -/
def PPU.readRegister (p : PPU) (addr : Nat) : Nat :=
  if addr = 0x2000 then p.control
  else if addr = 0x2001 then p.mask
  else if addr = 0x2002 then p.status
  else if addr = 0x2003 then p.oamAddr
  else if addr = 0x2004 then p.oamData p.oamAddr
  else if addr = 0x2005 then (if !p.addrLatch then p.scroll.1 else p.scroll.2)
  else if addr = 0x2007 then p.vram (p.addr &&& 0x7FF)
  else 0

/-- CPU register file from `src/cpu.rs` (`struct CPU`); `flags` is the
packed status byte `Flags.bits`.  The `bus.ppu` handle referenced by
`add_cycle`/`step` does not exist on the `Bus` in `src/bus.rs`, so PPU
ticking is not modelled; the cycle accounting itself is kept exactly. -/
structure CPU where
  registerA : Nat
  registerX : Nat
  registerY : Nat
  registerSp : Nat
  registerPc : Nat
  flags : Nat
  bus : Bus
  cycles : Nat

def STACK : Nat := 0x0100

def STACK_RESET : Nat := 0xFD

/-- Function `Flags::set_bit` (src/cpu.rs lines 1110-1113): `bits |= 1 << bit` or
`bits &= !(1 << bit)`; the `u8` complement of `1 << bit` is `255 ^^^ (1 <<< bit)`. -/
def setBit (bits bit : Nat) (value : Bool) : Nat :=
  if value then bits ||| (1 <<< bit) else bits &&& (255 ^^^ (1 <<< bit))

/-- Function `Flags::get_bit` (src/cpu.rs lines 1115-1117). -/
def getBit (bits bit : Nat) : Bool :=
  bits &&& (1 <<< bit) != 0

/-- Function `CPU::mem_read` delegates to the bus (src/cpu.rs lines 89-91). -/
def CPU.memRead (c : CPU) (addr : Nat) : Nat :=
  c.bus.memRead addr

/-- Function `CPU::mem_write` delegates to the bus (src/cpu.rs lines 93-95); a panic
or process exit inside the bus does not return to the CPU (`none`). -/
def CPU.memWrite (c : CPU) (addr data : Nat) : Option CPU :=
  match c.bus.memWrite addr data with
  | .ok b => some { c with bus := b }
  | .panicked => none
  | .exited _ => none

/-- Function `CPU::mem_read_16` delegates to the bus (src/cpu.rs lines 97-99). -/
def CPU.memRead16 (c : CPU) (addr : Nat) : Option Nat :=
  c.bus.memRead16 addr

/-- Function `CPU::stack_push` (src/cpu.rs lines 407-410): write at `STACK + SP`,
then `SP = SP.wrapping_sub(1)` (modelled `(SP + 255) % 256`). -/
def CPU.stackPush (c : CPU) (data : Nat) : Option CPU :=
  (c.memWrite (STACK + c.registerSp) data).map
    fun c1 => { c1 with registerSp := (c1.registerSp + 255) % 256 }

/-- Function `CPU::stack_pop` (src/cpu.rs lines 413-417): `SP = SP.wrapping_add(1)`,
then read at `STACK + SP`. -/
def CPU.stackPop (c : CPU) : CPU × Nat :=
  let c1 := { c with registerSp := (c.registerSp + 1) % 256 }
  (c1, c1.memRead (STACK + c1.registerSp))

/-- Function `CPU::stack_push_16` (src/cpu.rs lines 420-425): push high byte, then low byte. -/
def CPU.stackPush16 (c : CPU) (data : Nat) : Option CPU := do
  let c1 ← c.stackPush (data >>> 8)
  c1.stackPush (data &&& 0xFF)

/-- Function `CPU::stack_pop_16` (src/cpu.rs lines 428-433): pop low byte, then high byte. -/
def CPU.stackPop16 (c : CPU) : CPU × Nat :=
  let (c1, lo) := c.stackPop
  let (c2, hi) := c1.stackPop
  (c2, hi <<< 8 ||| lo)

/-- Function `CPU::update_flags` (src/cpu.rs lines 436-442): Zero from `result == 0`,
Negative from bit 7 of `result`. -/
def CPU.updateFlags (c : CPU) (result : Nat) : CPU :=
  let c1 := { c with flags := setBit c.flags 1 (result == 0) }
  { c1 with flags := setBit c1.flags 7 (result &&& 0b10000000 != 0) }

/-- Function `CPU::reset` (src/cpu.rs lines 122-131). -/
def CPU.reset (c : CPU) : Option CPU := do
  let c1 := { c with registerA := 0, registerX := 0, registerY := 0,
                     registerSp := STACK_RESET, flags := 0x24, cycles := 0 }
  let pc ← c1.memRead16 0xFFFC
  some { c1 with registerPc := pc }

/-- Function `CPU::trigger_nmi` (src/cpu.rs lines 263-277): push PC (16-bit), compute
the pushed status byte exactly as the source does (`flags |= 0x20` then
`flags &= 0x10`), push it, set InterruptDisable (bit 2), load PC from the
NMI vector at `0xFFFA`, then call `add_cycle` seven times (cycles + 7;
PPU ticks are not modelled as `src/bus.rs` holds no PPU). -/
def CPU.triggerNmi (c : CPU) : Option CPU := do
  let c1 ← c.stackPush16 c.registerPc
  let pushed := (c1.flags ||| 0x20) &&& 0x10
  let c2 ← c1.stackPush pushed
  let c3 := { c2 with flags := setBit c2.flags 2 true }
  let pc ← c3.memRead16 0xFFFA
  some { c3 with registerPc := pc, cycles := c3.cycles + 7 }

/-- Function `CPU::brk` (src/cpu.rs lines 531-536).  This function is DEAD CODE:
`step()` maps opcode `0x00` to a bare `return` (labelled `/* RET */`) and
never calls it.  As written it pushes PC, pushes the unmodified status
byte, loads PC from `0xFFFE`, then sets the live Break flag; it never sets
InterruptDisable. -/
def CPU.brk (c : CPU) : Option CPU := do
  let c1 ← c.stackPush16 c.registerPc
  let c2 ← c1.stackPush c1.flags
  let pc ← c2.memRead16 0xFFFE
  let c3 := { c2 with registerPc := pc }
  some { c3 with flags := setBit c3.flags 4 true }

/-- Sign extension of a byte to 16 bits: the Rust `displacement as i8 as u16`. -/
def signExt8 (d : Nat) : Nat :=
  if d < 0x80 then d else 0xFF00 ||| d

/-- Function `CPU::branch` (src/cpu.rs lines 325-332): if the condition holds, read
the displacement byte at PC, set `PC = PC.wrapping_add(1).wrapping_add(disp as u16)`.
No cycle is added in either case. -/
def CPU.branch (c : CPU) (condition : Bool) : CPU :=
  if condition then
    let displacement := c.memRead c.registerPc
    let addr := (c.registerPc + 1 + signExt8 displacement) % 0x10000
    { c with registerPc := addr }
  else c

/-- Function `CPU::add_to_reg_a` (src/cpu.rs lines 285-298): `sum = A + data + C` (in
`u16`, no overflow possible), carry from `sum > 0xFF`, `result = sum as u8`,
overflow from `(data ^ result) & (result ^ A) & 0x80 != 0` (with the OLD A),
then `A = result` and NZ update. -/
def CPU.addToRegA (c : CPU) (data : Nat) : CPU :=
  let sum := c.registerA + data + (if getBit c.flags 0 then 1 else 0)
  let c1 := { c with flags := setBit c.flags 0 (decide (0xFF < sum)) }
  let result := sum % 256
  let v := ((data ^^^ result) &&& (result ^^^ c1.registerA) &&& 0x80) != 0
  let c2 := { c1 with flags := setBit c1.flags 6 v }
  let c3 := { c2 with registerA := result }
  c3.updateFlags c3.registerA

/-- The operand transformation in `CPU::sbc` (src/cpu.rs line 835):
`((data as i8).wrapping_neg().wrapping_sub(1)) as u8`, i.e. twos-complement
negation `(256 - data) % 256` followed by a wrapping decrement. -/
def sbcOperand (data : Nat) : Nat :=
  ((256 - data % 256) % 256 + 255) % 256

/-- Body of `CPU::adc` (src/cpu.rs lines 451-456) after the operand byte has
been fetched: `add_to_reg_a(value)`. -/
def CPU.adcVal (c : CPU) (value : Nat) : CPU :=
  c.addToRegA value

/-- Body of `CPU::sbc` (src/cpu.rs lines 831-836) after the operand byte has
been fetched: `add_to_reg_a(((data as i8).wrapping_neg().wrapping_sub(1)) as u8)`. -/
def CPU.sbcVal (c : CPU) (data : Nat) : CPU :=
  c.addToRegA (sbcOperand data)

/-- Function `CPU::php` (src/cpu.rs lines 733-738): clone the flags, force the Break
and Unused bits, push the result. -/
def CPU.php (c : CPU) : Option CPU :=
  let f := setBit c.flags 4 true
  let f := setBit f 5 true
  c.stackPush f

/-- Function `CPU::plp` (src/cpu.rs lines 748-752): pop into the flags, clear Break,
set Unused. -/
def CPU.plp (c : CPU) : CPU :=
  let (c1, data) := c.stackPop
  let f := setBit data 4 false
  let f := setBit f 5 true
  { c1 with flags := f }

/-- Function `CPU::jmp_ind` (src/cpu.rs lines 641-652): read the 16-bit operand at PC;
if its low byte is `0xFF`, fetch the target low byte from the operand address
and the high byte from `operand & 0xFF00` (the 6502 page-wrap bug); otherwise
do a normal 16-bit read at the operand. -/
def CPU.jmpInd (c : CPU) : Option CPU := do
  let addr ← c.memRead16 c.registerPc
  let indirectRef ←
    if addr &&& 0x00FF = 0x00FF then
      some ((c.memRead (addr &&& 0xFF00)) <<< 8 ||| c.memRead addr)
    else c.memRead16 addr
  some { c with registerPc := indirectRef }

/-- Decode-table record: `opcodes::OPCode` length and base cycles. -/
structure OpcodeInfo where
  len : Nat
  cycles : Nat

/-- Modelled from the spec: `opcodes.rs` (the `OPCodes_MAP` table) is
declared in `main.rs` but its source is not under `src/`.  Spec section 4.2:
all 256 entries are defined with `{length, baseCycles}`; sections 4.5 and 8
give the branch instructions length 2 and base cost 2 cycles.  Only the
entries reached by the claims are modelled; other opcodes yield `none`. -/
def opcodeInfo (code : Nat) : Option OpcodeInfo :=
  if code = 0x00 then some ⟨1, 7⟩
  else if code = 0x90 ∨ code = 0xB0 ∨ code = 0xF0 ∨ code = 0x30 ∨
          code = 0xD0 ∨ code = 0x10 ∨ code = 0x50 ∨ code = 0x70 then some ⟨2, 2⟩
  else none

/-- Function `CPU::step` (src/cpu.rs lines 134-254) restricted to the opcodes the
claims exercise.  Fetch the opcode byte at PC and advance PC; remember
`pc_before`; look the opcode up (a missing entry is the source `.expect`
panic, `none`).  Opcode `0x00` (labelled `/* RET */` in the source) returns
from `step` immediately: no handler runs, the PC adjustment and the cycle
update are both skipped.  The branch opcodes dispatch to `branch` with their
condition; afterwards, if PC is unchanged, it advances by `len - 1`, and
`cycles` grows by the base cost. -/
def CPU.step (c : CPU) : Option CPU := do
  let code := c.memRead c.registerPc
  let c1 := { c with registerPc := (c.registerPc + 1) % 0x10000 }
  let pcBefore := c1.registerPc
  let opcode ← opcodeInfo code
  if code = 0x00 then
    some c1
  else do
    let c2 ←
      if code = 0x90 then some (c1.branch (!getBit c1.flags 0))
      else if code = 0xB0 then some (c1.branch (getBit c1.flags 0))
      else if code = 0xF0 then some (c1.branch (getBit c1.flags 1))
      else if code = 0x30 then some (c1.branch (getBit c1.flags 7))
      else if code = 0xD0 then some (c1.branch (!getBit c1.flags 1))
      else if code = 0x10 then some (c1.branch (!getBit c1.flags 7))
      else if code = 0x50 then some (c1.branch (!getBit c1.flags 6))
      else if code = 0x70 then some (c1.branch (getBit c1.flags 6))
      else none
    let c3 := if pcBefore = c2.registerPc
              then { c2 with registerPc := (c2.registerPc + (opcode.len - 1)) % 0x10000 }
              else c2
    some { c3 with cycles := c3.cycles + opcode.cycles }

/-- A PRG-ROM with all bytes zero and the two-bank length `0x8000`. -/
def rom0 : Rom := { pRomLen := 0x8000, pRom := fun _ => 0 }

/-- A bus with zeroed RAM and the all-zero two-bank ROM. -/
def bus0 : Bus := { cpuVram := fun _ => 0, rom := rom0 }

/-- A CPU in its construction state over `bus0`. -/
def cpu0 : CPU :=
  { registerA := 0
    registerX := 0
    registerY := 0
    registerSp := 0xFD
    registerPc := 0
    flags := 0x24
    bus := bus0
    cycles := 0 }

/-- A PPU whose control register reads `0x55` (all other state zero). -/
def ppu0 : PPU :=
  { control := 0x55
    mask := 0
    status := 0
    oamAddr := 0
    oamData := fun _ => 0
    scroll := (0, 0)
    addrLatch := false
    addr := 0
    vram := fun _ => 0 }

theorem and_7FF_eq_mod (x : Nat) : x &&& 0x7FF = x % 0x800 := by
  have h : (0x7FF : Nat) = 2 ^ 11 - 1 := by norm_num
  rw [h, Nat.and_pow_two_sub_one_eq_mod]

theorem mirror_addr_eval (k x : Nat) (hk : k ≤ 3) (hx : x < 0x800) :
    (x ||| k * 0x800) ≤ 0x1FFF ∧ (x ||| k * 0x800) &&& 0x7FF = x := by
  constructor
  · have h1 : x < 2 ^ 13 := by omega
    have h2 : k * 0x800 < 2 ^ 13 := by omega
    have h3 := Nat.or_lt_two_pow h1 h2
    omega
  · rw [Nat.and_distrib_right, and_7FF_eq_mod, and_7FF_eq_mod, Nat.mod_eq_of_lt hx]
    have hz : k * 0x800 % 0x800 = 0 := by omega
    rw [hz, Nat.or_zero]

/-- Claim C6: writing byte `data` to any RAM-window address `a ≤ 0x1FFF`
succeeds, and a subsequent read at each of the four mirrors
`(a &&& 0x7FF) ||| k * 0x800` (k = 0, 1, 2, 3) returns `data`, while every
other RAM cell is unchanged. -/
theorem ram_write_mirror_roundtrip (b : Bus) (a data : Nat)
    (ha : a ≤ 0x1FFF) (_hd : data < 256) :
    ∃ b1, b.memWrite a data = WriteResult.ok b1
      ∧ (∀ k, k ≤ 3 → b1.memRead ((a &&& 0x7FF) ||| k * 0x800) = data)
      ∧ (∀ i, i ≠ a &&& 0x7FF → b1.cpuVram i = b.cpuVram i) := by
  refine ⟨{ b with cpuVram := fun i => if i = a &&& 0x7FF then data else b.cpuVram i },
          ?_, ?_, ?_⟩
  · unfold Bus.memWrite
    rw [if_pos ha]
  · intro k hk
    have hx : a &&& 0x7FF < 0x800 := by
      have h7 : a &&& 0x7FF ≤ 0x7FF := Nat.and_le_right
      omega
    have h := mirror_addr_eval k (a &&& 0x7FF) hk hx
    unfold Bus.memRead
    rw [if_pos h.1, h.2]
    simp
  · intro i hi
    simp [hi]

theorem ram_write_mirror_roundtrip_witness :
    (0x1234 : Nat) ≤ 0x1FFF ∧ (0xAB : Nat) < 256
    ∧ ∃ b1, Bus.memWrite bus0 0x1234 0xAB = WriteResult.ok b1
      ∧ (∀ k, k ≤ 3 → b1.memRead ((0x1234 &&& 0x7FF) ||| k * 0x800) = 0xAB)
      ∧ (∀ i, i ≠ 0x1234 &&& 0x7FF → b1.cpuVram i = bus0.cpuVram i) :=
  ⟨by decide, by decide, ram_write_mirror_roundtrip bus0 0x1234 0xAB (by decide) (by decide)⟩

/-- Claim C4 counterexample: the claim says a write into `0x8000..=0xFFFF`
returns normally with state unchanged, but `Bus::mem_write` at `0x8000`
never returns `ok`: it panics. -/
theorem rom_write_counterexample :
    ¬ ∃ b1, Bus.memWrite bus0 0x8000 0x12 = WriteResult.ok b1 := by
  intro h
  obtain ⟨b1, hb⟩ := h
  rw [show Bus.memWrite bus0 0x8000 0x12 = WriteResult.panicked from rfl] at hb
  cases hb

/-- Claim C4 (amended): for every address in `0x8000..=0xFFFF` and every data
byte, `Bus::mem_write` panics (message `Attmempt to write to cartridge ROM
Space`); it never returns normally and never reaches the mapper layer. -/
theorem rom_write_panics (b : Bus) (addr data : Nat)
    (h1 : 0x8000 ≤ addr) (h2 : addr ≤ 0xFFFF) :
    b.memWrite addr data = WriteResult.panicked := by
  unfold Bus.memWrite
  split_ifs <;> first | rfl | omega

theorem rom_write_panics_witness :
    (0x8000 : Nat) ≤ 0x9000 ∧ (0x9000 : Nat) ≤ 0xFFFF
    ∧ Bus.memWrite bus0 0x9000 0x07 = WriteResult.panicked :=
  ⟨by decide, by decide, rom_write_panics bus0 0x9000 0x07 (by decide) (by decide)⟩

/-- Claim C5 counterexample: reads in `0x2000..=0x3FFF` do NOT delegate to
`PPU::read_register`: with a PPU whose control register is `0x55`, the bus
read at `0x2000` returns the fixed `0xFF`, not `read_register 0x2000 = 0x55`.
(`Bus` in `src/bus.rs` holds no PPU at all.) -/
theorem ppu_read_delegation_counterexample :
    ¬ (∀ (p : PPU) (b : Bus) (addr : Nat), 0x2000 ≤ addr → addr ≤ 0x3FFF →
        b.memRead addr = p.readRegister (0x2000 ||| (addr &&& 7))) := by
  intro h
  exact absurd (h ppu0 bus0 0x2000 (by decide) (by decide)) (by decide)

/-- Claim C5 (amended): for every address in `0x2000..=0x3FFF`, a bus read
returns the fixed default byte `0xFF`; `Bus::mem_read` never consults the
PPU (the source `Bus` has no PPU handle and its default match arm covers
this window). -/
theorem ppu_region_read_fixed (b : Bus) (addr : Nat)
    (h1 : 0x2000 ≤ addr) (h2 : addr ≤ 0x3FFF) :
    b.memRead addr = 0xFF := by
  unfold Bus.memRead
  split_ifs <;> first | rfl | omega

theorem ppu_region_read_fixed_witness :
    (0x2000 : Nat) ≤ 0x2002 ∧ (0x2002 : Nat) ≤ 0x3FFF ∧ Bus.memRead bus0 0x2002 = 0xFF :=
  ⟨by decide, by decide, ppu_region_read_fixed bus0 0x2002 (by decide) (by decide)⟩

/-- Claim C10: the 16-bit read helper computes the high-byte address with
non-wrapping `u16` addition `addr + 1`: for every `addr < 0xFFFF` it returns
the little-endian word with the low byte read at `addr` and the high byte at
`addr + 1`; at `addr = 0xFFFF` the address computation overflows (the read
is undefined, not a wrap to `0x0000`); and `reset`, whose vector fetch is at
`0xFFFC < 0xFFFF`, always stays in the defined domain. -/
theorem mem_read_16_domain :
    (∀ (b : Bus) (addr : Nat), addr < 0xFFFF →
        b.memRead16 addr = some ((b.memRead (addr + 1)) <<< 8 ||| b.memRead addr))
    ∧ (∀ b : Bus, b.memRead16 0xFFFF = none)
    ∧ (∀ c : CPU, ∃ c1, c.reset = some c1
        ∧ c1.registerPc = (c.memRead 0xFFFD) <<< 8 ||| c.memRead 0xFFFC
        ∧ c1.registerSp = 0xFD ∧ c1.flags = 0x24 ∧ c1.cycles = 0) := by
  refine ⟨?_, ?_, ?_⟩
  · intro b addr h
    unfold Bus.memRead16
    rw [if_pos (by omega)]
  · intro b
    unfold Bus.memRead16
    rw [if_neg (by omega)]
  · intro c
    exact ⟨_, rfl, rfl, rfl, rfl, rfl⟩

theorem mem_read_16_domain_witness :
    (0x8000 : Nat) < 0xFFFF
    ∧ Bus.memRead16 bus0 0x8000 = some ((bus0.memRead (0x8000 + 1)) <<< 8 ||| bus0.memRead 0x8000)
    ∧ Bus.memRead16 bus0 0xFFFF = none
    ∧ ∃ c1, cpu0.reset = some c1
        ∧ c1.registerPc = (cpu0.memRead 0xFFFD) <<< 8 ||| cpu0.memRead 0xFFFC
        ∧ c1.registerSp = 0xFD ∧ c1.flags = 0x24 ∧ c1.cycles = 0 :=
  ⟨by decide, mem_read_16_domain.1 bus0 0x8000 (by decide), mem_read_16_domain.2.1 bus0,
   mem_read_16_domain.2.2 cpu0⟩

/-- ROM for the BRK scenario: opcode `0x00` at `0x8000` (offset 0) and the
IRQ/BRK vector `0xC000` at `0xFFFE/F` (offsets `0x7FFE/F`). -/
def romC1 : Rom :=
  { pRomLen := 0x8000
    pRom := fun a => if a = 0x7FFE then 0x00 else if a = 0x7FFF then 0xC0 else 0 }

/-- CPU about to execute opcode `0x00` at `0x8000`, with `SP = 0xFD`, `P = 0`. -/
def cpuC1 : CPU :=
  { registerA := 0
    registerX := 0
    registerY := 0
    registerSp := 0xFD
    registerPc := 0x8000
    flags := 0
    bus := { cpuVram := fun _ => 0, rom := romC1 }
    cycles := 0 }

/-- Claim C1 counterexample: with opcode `0x00` at `PC = 0x8000`, `SP = 0xFD`,
`P = 0`, and the `0xFFFE/F` vector holding `0xC000`, `step()` leaves `SP` at
`0xFD` (nothing was pushed), leaves `P` at `0` (InterruptDisable was not set),
adds no cycles, and sets `PC = 0x8001` instead of loading the vector `0xC000`. -/
theorem brk_step_counterexample :
    ((CPU.step cpuC1).map fun t => (t.registerPc, t.registerSp, t.flags, t.cycles))
      = some (0x8001, 0xFD, 0, 0)
    ∧ (0x8001 : Nat) ≠ 0xC000 ∧ (0xFD : Nat) ≠ 0xFA :=
  ⟨by decide, by decide, by decide⟩

/-- Claim C1 (amended): executing opcode `0x00` via `step()` performs no
interrupt sequence at all: `step` returns immediately after the opcode
fetch, advancing `PC` by one (mod 2^16) and leaving every other part of the
state - stack memory, `SP`, `P`, `cycles` - unchanged.  (The `brk` helper,
which would push `PC` and the raw `P`, load `PC` from `0xFFFE/F` and then
set the live B flag without ever setting I, is unreachable from `step`.) -/
theorem step_opcode_00_returns (c : CPU) (h : c.memRead c.registerPc = 0x00) :
    CPU.step c = some { c with registerPc := (c.registerPc + 1) % 0x10000 } := by
  unfold CPU.step
  rw [h]
  rfl

theorem step_opcode_00_returns_witness :
    CPU.memRead cpuC1 cpuC1.registerPc = 0x00
    ∧ CPU.step cpuC1 = some { cpuC1 with registerPc := (cpuC1.registerPc + 1) % 0x10000 } :=
  ⟨by decide, step_opcode_00_returns cpuC1 (by decide)⟩

/-- ROM for the NMI scenario: the NMI vector at `0xFFFA/B` (offsets
`0x7FFA/B`) holds `0xC000`. -/
def romC2 : Rom :=
  { pRomLen := 0x8000
    pRom := fun a => if a = 0x7FFA then 0x00 else if a = 0x7FFB then 0xC0 else 0 }

/-- CPU at the spec NMI-entry input: `PC = 0x8000`, `SP = 0xFD`, `P = 0x24`. -/
def cpuC2 : CPU :=
  { registerA := 0
    registerX := 0
    registerY := 0
    registerSp := 0xFD
    registerPc := 0x8000
    flags := 0x24
    bus := { cpuVram := fun _ => 0, rom := romC2 }
    cycles := 0 }

/-- Claim C2 at the spec input (`PC = 0x8000`, `SP = 0xFD`, `P = 0x24`,
NMI vector `0xC000`): `trigger_nmi` does set `PC = 0xC000`, `SP = 0xFA`, I,
and adds exactly 7 cycles, and pushes the PC bytes `0x00`/`0x80` - but the
status byte it pushes at `0x01FB` is `0x00`, not the claimed `0x34`: the
source computes `(P | 0x20) & 0x10` (keeping ONLY the Break bit, although
its own comment says it clears Break), not `(P | 0x20) & !0x10`. -/
theorem trigger_nmi_spec_input :
    ((CPU.triggerNmi cpuC2).map fun t => (t.registerPc, t.registerSp, t.cycles))
      = some (0xC000, 0xFA, 7)
    ∧ ((CPU.triggerNmi cpuC2).map fun t => getBit t.flags 2) = some true
    ∧ ((CPU.triggerNmi cpuC2).map fun t => (t.memRead 0x1FB, t.memRead 0x1FC, t.memRead 0x1FD))
      = some (0x00, 0x00, 0x80)
    ∧ (0x00 : Nat) ≠ 0x34 :=
  ⟨by decide, by decide, by decide, by decide⟩

/-- ROM for the branch scenario: `BNE +4` (bytes `0xD0 0x04`) at `0x80FD`
(offsets `0xFD/0xFE`). -/
def romC3 : Rom :=
  { pRomLen := 0x8000
    pRom := fun a => if a = 0xFD then 0xD0 else if a = 0xFE then 0x04 else 0 }

/-- CPU about to execute the BNE at `0x80FD` with Z = 0 (`P = 0x24`). -/
def cpuC3 : CPU :=
  { registerA := 0
    registerX := 0
    registerY := 0
    registerSp := 0xFD
    registerPc := 0x80FD
    flags := 0x24
    bus := { cpuVram := fun _ => 0, rom := romC3 }
    cycles := 0 }

/-- Claim C3 at the spec input: a taken BNE at `0x80FD` with displacement
`+4` does set `PC = 0x8103` as claimed, but costs only the base 2 cycles -
`CPU::branch` adjusts only the PC and never adds the taken-branch or
page-cross cycle the claim requires (which would give 4). -/
theorem branch_cycles_spec_input :
    ((CPU.step cpuC3).map fun t => (t.registerPc, t.cycles)) = some (0x8103, 2)
    ∧ (2 : Nat) ≠ 4 :=
  ⟨by decide, by decide⟩

/-- ROM for the indirect-JMP scenario at `0x30FF`: the operand `0xFF 0x30`
sits at `0x8000/0x8001` (offsets 0 and 1). -/
def romC7 : Rom :=
  { pRomLen := 0x8000
    pRom := fun a => if a = 0 then 0xFF else if a = 1 then 0x30 else 0 }

/-- CPU whose `jmp_ind` operand (at `PC = 0x8000`) is the pointer `0x30FF`. -/
def cpuC7 : CPU :=
  { registerA := 0
    registerX := 0
    registerY := 0
    registerSp := 0xFD
    registerPc := 0x8000
    flags := 0x24
    bus := { cpuVram := fun _ => 0, rom := romC7 }
    cycles := 0 }

/-- Claim C7 counterexample: on this bus the spec concrete scenario cannot
arise - `0x2000..=0x3FFF` is not backed by storage.  Placing `0x34` at
`0x30FF` and `0x12` at `0x3000` are no-op writes (the bus is returned
unchanged), both reads yield the fixed `0xFF`, and `JMP (0x30FF)` therefore
sets `PC = 0xFFFF`, not `0x1234`. -/
theorem jmp_ind_30FF_counterexample :
    Bus.memWrite cpuC7.bus 0x30FF 0x34 = WriteResult.ok cpuC7.bus
    ∧ Bus.memWrite cpuC7.bus 0x3000 0x12 = WriteResult.ok cpuC7.bus
    ∧ ((CPU.jmpInd cpuC7).map fun t => t.registerPc) = some 0xFFFF
    ∧ (0xFFFF : Nat) ≠ 0x1234 :=
  ⟨rfl, rfl, by decide, by decide⟩

/-- Claim C7 (amended): when the 16-bit operand of `JMP (0x6C)` has low byte
`0xFF`, the low byte of the target is fetched from the operand address and
the high byte from the byte 0x00 of the same page, at `0x00` (`operand & 0xFF00`), not from
the next page.  The spec concrete instance must live in a storage-backed
region: with `0x34` at `0x10FF` and `0x12` at `0x1000` (RAM), `JMP (0x10FF)`
sets `PC = 0x1234`; at `0x30FF` (the unbacked PPU window, reads fixed at
`0xFF`) the target is `0xFFFF` regardless of prior writes. -/
theorem jmp_ind_page_wrap (c : CPU) (addr : Nat)
    (h1 : c.memRead16 c.registerPc = some addr)
    (h2 : addr &&& 0x00FF = 0x00FF) :
    c.jmpInd = some { c with registerPc :=
      (c.memRead (addr &&& 0xFF00)) <<< 8 ||| c.memRead addr } := by
  unfold CPU.jmpInd
  rw [h1]
  simp [h2]

/-- ROM for the relocated indirect-JMP witness: operand `0xFF 0x10` at
`0x8000/0x8001`. -/
def romC7w : Rom :=
  { pRomLen := 0x8000
    pRom := fun a => if a = 0 then 0xFF else if a = 1 then 0x10 else 0 }

/-- CPU with pointer `0x10FF`, RAM holding `0x34` at `0x10FF` (cell `0xFF`)
and `0x12` at `0x1000` (cell `0x00`). -/
def cpuC7w : CPU :=
  { registerA := 0
    registerX := 0
    registerY := 0
    registerSp := 0xFD
    registerPc := 0x8000
    flags := 0x24
    bus := { cpuVram := fun i => if i = 0xFF then 0x34 else if i = 0 then 0x12 else 0
             rom := romC7w }
    cycles := 0 }

theorem jmp_ind_page_wrap_witness :
    CPU.memRead16 cpuC7w cpuC7w.registerPc = some 0x10FF
    ∧ (0x10FF &&& 0x00FF : Nat) = 0x00FF
    ∧ CPU.jmpInd cpuC7w = some { cpuC7w with registerPc :=
        (CPU.memRead cpuC7w (0x10FF &&& 0xFF00)) <<< 8 ||| CPU.memRead cpuC7w 0x10FF }
    ∧ (CPU.memRead cpuC7w (0x10FF &&& 0xFF00)) <<< 8 ||| CPU.memRead cpuC7w 0x10FF = 0x1234 :=
  ⟨by decide, by decide, jmp_ind_page_wrap cpuC7w 0x10FF (by decide) (by decide), by decide⟩

set_option maxRecDepth 4096 in
theorem php_push_eval :
    ∀ f : Fin 256, setBit (setBit f.val 4 true) 5 true = f.val ||| 0x30 := by
  decide

set_option maxRecDepth 4096 in
theorem plp_flag_eval :
    ∀ f : Fin 256,
      setBit (setBit (setBit (setBit f.val 4 true) 5 true) 4 false) 5 true
        = (f.val &&& 0xEF) ||| 0x20 := by
  decide

/-- Claim C8: for every status byte `P` and stack pointer, `PHP` pushes
`P` with bits 4 and 5 both forced to 1 (`P ||| 0x30`), and the following
`PLP` leaves the flags at the original `P` with bit 5 forced to 1 and bit 4
forced to 0, restoring `SP` to its value before the `PHP`. -/
theorem php_plp_roundtrip (c : CPU) (hsp : c.registerSp < 256) (hf : c.flags < 256) :
    ∃ t, c.php = some t
      ∧ t.memRead (STACK + c.registerSp) = (c.flags ||| 0x30)
      ∧ (t.plp).flags = (c.flags &&& 0xEF) ||| 0x20
      ∧ (t.plp).registerSp = c.registerSp := by
  have haddr : STACK + c.registerSp ≤ 0x1FFF := by unfold STACK; omega
  have hlt : STACK + c.registerSp < 0x800 := by unfold STACK; omega
  have hsp2 : ((c.registerSp + 255) % 256 + 1) % 256 = c.registerSp := by omega
  unfold CPU.php CPU.stackPush CPU.memWrite Bus.memWrite
  simp only [if_pos haddr]
  refine ⟨_, rfl, ?_, ?_, ?_⟩
  · unfold CPU.memRead Bus.memRead
    rw [if_pos haddr]
    simp only [and_7FF_eq_mod, Nat.mod_eq_of_lt hlt, if_pos rfl]
    exact php_push_eval ⟨c.flags, hf⟩
  · unfold CPU.plp CPU.stackPop CPU.memRead Bus.memRead
    simp only [hsp2, if_pos haddr, and_7FF_eq_mod, Nat.mod_eq_of_lt hlt, if_pos rfl]
    exact plp_flag_eval ⟨c.flags, hf⟩
  · unfold CPU.plp CPU.stackPop
    simp [hsp2]

theorem php_plp_roundtrip_witness :
    cpu0.registerSp < 256 ∧ cpu0.flags < 256
    ∧ ∃ t, CPU.php cpu0 = some t
      ∧ t.memRead (STACK + cpu0.registerSp) = (cpu0.flags ||| 0x30)
      ∧ (t.plp).flags = (cpu0.flags &&& 0xEF) ||| 0x20
      ∧ (t.plp).registerSp = cpu0.registerSp :=
  ⟨by decide, by decide, php_plp_roundtrip cpu0 (by decide) (by decide)⟩

set_option maxRecDepth 4096 in
theorem sbc_operand_eval : ∀ m : Fin 256, sbcOperand m.val = m.val ^^^ 0xFF := by
  decide

/-- Claim C9: SBC equals ADC of the bitwise complement: the operand
transformation `(-M - 1)` computed by `i8` wrapping negation and subtraction
equals `M ^^^ 0xFF` for every byte `M`, so executing the SBC body on operand
`M` yields exactly the same CPU state - in particular the same A, C, V, N
and Z - as executing the ADC body on operand `~M`. -/
theorem sbc_is_adc_of_complement (c : CPU) (m : Nat) (hm : m < 256) :
    sbcOperand m = m ^^^ 0xFF ∧ c.sbcVal m = c.adcVal (m ^^^ 0xFF) := by
  have h := sbc_operand_eval ⟨m, hm⟩
  exact ⟨h, by unfold CPU.sbcVal CPU.adcVal; rw [h]⟩

theorem sbc_is_adc_of_complement_witness :
    (0x50 : Nat) < 256
    ∧ sbcOperand 0x50 = 0x50 ^^^ 0xFF
    ∧ CPU.sbcVal cpu0 0x50 = CPU.adcVal cpu0 (0x50 ^^^ 0xFF) :=
  ⟨by decide, (sbc_is_adc_of_complement cpu0 0x50 (by decide)).1,
   (sbc_is_adc_of_complement cpu0 0x50 (by decide)).2⟩

end Nes
